import Mathlib

set_option maxRecDepth 100000

set_option maxHeartbeats 1000000

/-
  Verification development for the totp repository.

  The repository's program (src/totp_calculator/main.py) reads free text on
  stdin, locates an otpauth:// URI, extracts the value of the `secret` query
  parameter, and computes the current TOTP code via pyotp.TOTP(secret).now(),
  optionally copying it to the clipboard.

  This file shallowly embeds that pipeline: bytes are `Nat` values below 256
  (kept in range by explicit masking), machine words are `Nat` reduced modulo
  2^32 or 2^64, Python exceptions become `Except` values, and the ambient
  clock is passed explicitly as a unix-seconds `Nat`.

  The cryptographic layer (SHA-1, SHA-512, HMAC, base32, HOTP dynamic
  truncation) embeds the library code the program calls (hashlib, hmac,
  base64.b32decode, pyotp); the parsing layer embeds urllib.parse.urlsplit
  (query extraction and its IPv6-bracket error) and parse_qs/parse_qsl with
  CPython's default keep_blank_values=False semantics, including '+'
  replacement and percent-decoding with UTF-8 "replace" error handling.
-/

/- Equality of `Except` results is decidable whenever both components are;
used to evaluate the embedded functions on concrete inputs. -/
deriving instance DecidableEq for Except

/- ## Bytes and words -/

/-- 2^32, the modulus for 32-bit words. -/
def M32 : Nat := 4294967296

/-- 2^64, the modulus for 64-bit words. -/
def M64 : Nat := 18446744073709551616

/-- Rotate a 32-bit word (a `Nat` below 2^32) left by `n` bits. -/
def rotl32 (n x : Nat) : Nat := ((x <<< n) % M32) ||| (x >>> (32 - n))

/-- Rotate a 64-bit word right by `n` bits. -/
def rotr64 (n x : Nat) : Nat := (x >>> n) ||| ((x <<< (64 - n)) % M64)

/-- Bitwise complement on 32-bit words. -/
def not32 (x : Nat) : Nat := x ^^^ 4294967295

/-- Big-endian encoding of `n` into exactly `k` bytes (the low 8k bits). -/
def natToBytesBE : Nat → Nat → List Nat
  | 0, _ => []
  | k + 1, n => natToBytesBE k (n >>> 8) ++ [n &&& 255]

/-- Pack bytes into big-endian 32-bit words, four bytes per word. -/
def bytesToW32 : List Nat → List Nat
  | a :: b :: c :: d :: rest =>
      ((a <<< 24) ||| (b <<< 16) ||| (c <<< 8) ||| d) :: bytesToW32 rest
  | _ => []

/-- Pack bytes into big-endian 64-bit words, eight bytes per word. -/
def bytesToW64 : List Nat → List Nat
  | b0 :: b1 :: b2 :: b3 :: b4 :: b5 :: b6 :: b7 :: rest =>
      ((b0 <<< 56) ||| (b1 <<< 48) ||| (b2 <<< 40) ||| (b3 <<< 32) |||
       (b4 <<< 24) ||| (b5 <<< 16) ||| (b6 <<< 8) ||| b7) :: bytesToW64 rest
  | _ => []

/-- Merkle–Damgård padding: append 0x80, zeros, and the bit length as a
big-endian `lenBytes`-byte field, reaching a multiple of `blockLen` bytes. -/
def shaPad (blockLen lenBytes : Nat) (msg : List Nat) : List Nat :=
  let L := msg.length
  let zeros := (blockLen - lenBytes + blockLen - ((L + 1) % blockLen)) % blockLen
  msg ++ [128] ++ List.replicate zeros 0 ++ natToBytesBE lenBytes (8 * L)

/-- Fuel-driven fold over consecutive `bs`-byte blocks of a byte list.
The fuel is instantiated with the list length, which always suffices. -/
def foldBlocks (bs : Nat) (f : α → List Nat → α) : Nat → α → List Nat → α
  | 0, st, _ => st
  | _ + 1, st, [] => st
  | fuel + 1, st, l => foldBlocks bs f fuel (f st (l.take bs)) (l.drop bs)

/- ## SHA-1 (hashlib.sha1) -/

/-- SHA-1 chaining state: five 32-bit words. -/
structure Sha1H where
  h0 : Nat
  h1 : Nat
  h2 : Nat
  h3 : Nat
  h4 : Nat
deriving DecidableEq

/-- SHA-1 initial state. -/
def sha1Init : Sha1H := ⟨0x67452301, 0xEFCDAB89, 0x98BADCFE, 0x10325476, 0xC3D2E1F0⟩

/-- One SHA-1 round, `t` ranging over 0..79, message schedule `w`. -/
def sha1Round (w : Array Nat) (s : Nat × Nat × Nat × Nat × Nat) (t : Nat) :
    Nat × Nat × Nat × Nat × Nat :=
  let (a, b, c, d, e) := s
  let f :=
    if t < 20 then (b &&& c) ||| (not32 b &&& d)
    else if t < 40 then b ^^^ c ^^^ d
    else if t < 60 then (b &&& c) ||| (b &&& d) ||| (c &&& d)
    else b ^^^ c ^^^ d
  let k :=
    if t < 20 then 0x5A827999
    else if t < 40 then 0x6ED9EBA1
    else if t < 60 then 0x8F1BBCDC
    else 0xCA62C1D6
  let temp := (rotl32 5 a + f + e + k + w.getD t 0) % M32
  (temp, a, rotl32 30 b, c, d)

/-- SHA-1 compression of one 64-byte block. -/
def sha1Compress (st : Sha1H) (block : List Nat) : Sha1H :=
  let w0 := (bytesToW32 block).toArray
  let w := (List.range 64).foldl
    (fun w i => w.push (rotl32 1
      ((w.getD (i + 13) 0) ^^^ (w.getD (i + 8) 0) ^^^ (w.getD (i + 2) 0) ^^^ (w.getD i 0)))) w0
  let (a, b, c, d, e) :=
    (List.range 80).foldl (sha1Round w) (st.h0, st.h1, st.h2, st.h3, st.h4)
  ⟨(st.h0 + a) % M32, (st.h1 + b) % M32, (st.h2 + c) % M32,
   (st.h3 + d) % M32, (st.h4 + e) % M32⟩

/-- SHA-1 digest of a byte string: 20 bytes. -/
def sha1 (msg : List Nat) : List Nat :=
  let padded := shaPad 64 8 msg
  let h := foldBlocks 64 sha1Compress padded.length sha1Init padded
  natToBytesBE 4 h.h0 ++ natToBytesBE 4 h.h1 ++ natToBytesBE 4 h.h2 ++
  natToBytesBE 4 h.h3 ++ natToBytesBE 4 h.h4

/- ## SHA-512 (hashlib.sha512) -/

/-- SHA-512 round constants: the 64 fractional bits of the cube roots of the
first eighty primes (FIPS 180-4). -/
def sha512K : Array Nat := #[
  4794697086780616226, 8158064640168781261, 13096744586834688815, 16840607885511220156,
  4131703408338449720, 6480981068601479193, 10538285296894168987, 12329834152419229976,
  15566598209576043074, 1334009975649890238, 2608012711638119052, 6128411473006802146,
  8268148722764581231, 9286055187155687089, 11230858885718282805, 13951009754708518548,
  16472876342353939154, 17275323862435702243, 1135362057144423861, 2597628984639134821,
  3308224258029322869, 5365058923640841347, 6679025012923562964, 8573033837759648693,
  10970295158949994411, 12119686244451234320, 12683024718118986047, 13788192230050041572,
  14330467153632333762, 15395433587784984357, 489312712824947311, 1452737877330783856,
  2861767655752347644, 3322285676063803686, 5560940570517711597, 5996557281743188959,
  7280758554555802590, 8532644243296465576, 9350256976987008742, 10552545826968843579,
  11727347734174303076, 12113106623233404929, 14000437183269869457, 14369950271660146224,
  15101387698204529176, 15463397548674623760, 17586052441742319658, 1182934255886127544,
  1847814050463011016, 2177327727835720531, 2830643537854262169, 3796741975233480872,
  4115178125766777443, 5681478168544905931, 6601373596472566643, 7507060721942968483,
  8399075790359081724, 8693463985226723168, 9568029438360202098, 10144078919501101548,
  10430055236837252648, 11840083180663258601, 13761210420658862357, 14299343276471374635,
  14566680578165727644, 15097957966210449927, 16922976911328602910, 17689382322260857208,
  500013540394364858, 748580250866718886, 1242879168328830382, 1977374033974150939,
  2944078676154940804, 3659926193048069267, 4368137639120453308, 4836135668995329356,
  5532061633213252278, 6448918945643986474, 6902733635092675308, 7801388544844847127]

/-- SHA-512 working state: eight 64-bit words. -/
structure Sha512H where
  a : Nat
  b : Nat
  c : Nat
  d : Nat
  e : Nat
  f : Nat
  g : Nat
  h : Nat
deriving DecidableEq

/-- SHA-512 initial state. -/
def sha512Init : Sha512H :=
  ⟨7640891576956012808, 13503953896175478587, 4354685564936845355, 11912009170470909681,
   5840696475078001361, 11170449401992604703, 2270897969802886507, 6620516959819538809⟩

/-- One SHA-512 round with schedule `w`, `t` ranging over 0..79. -/
def sha512Round (w : Array Nat) (s : Sha512H) (t : Nat) : Sha512H :=
  let S1 := (rotr64 14 s.e) ^^^ (rotr64 18 s.e) ^^^ (rotr64 41 s.e)
  let ch := (s.e &&& s.f) ^^^ ((s.e ^^^ 18446744073709551615) &&& s.g)
  let T1 := (s.h + S1 + ch + sha512K.getD t 0 + w.getD t 0) % M64
  let S0 := (rotr64 28 s.a) ^^^ (rotr64 34 s.a) ^^^ (rotr64 39 s.a)
  let maj := (s.a &&& s.b) ^^^ (s.a &&& s.c) ^^^ (s.b &&& s.c)
  let T2 := (S0 + maj) % M64
  ⟨(T1 + T2) % M64, s.a, s.b, s.c, (s.d + T1) % M64, s.e, s.f, s.g⟩

/-- SHA-512 small sigma functions for the message schedule. -/
def sha512s0 (x : Nat) : Nat := (rotr64 1 x) ^^^ (rotr64 8 x) ^^^ (x >>> 7)

def sha512s1 (x : Nat) : Nat := (rotr64 19 x) ^^^ (rotr64 61 x) ^^^ (x >>> 6)

/-- SHA-512 compression of one 128-byte block. -/
def sha512Compress (st : Sha512H) (block : List Nat) : Sha512H :=
  let w0 := (bytesToW64 block).toArray
  let w := (List.range 64).foldl
    (fun w i => w.push
      ((sha512s1 (w.getD (i + 14) 0) + w.getD (i + 9) 0 +
        sha512s0 (w.getD (i + 1) 0) + w.getD i 0) % M64)) w0
  let r := (List.range 80).foldl (sha512Round w) st
  ⟨(st.a + r.a) % M64, (st.b + r.b) % M64, (st.c + r.c) % M64, (st.d + r.d) % M64,
   (st.e + r.e) % M64, (st.f + r.f) % M64, (st.g + r.g) % M64, (st.h + r.h) % M64⟩

/-- SHA-512 digest of a byte string: 64 bytes. -/
def sha512 (msg : List Nat) : List Nat :=
  let padded := shaPad 128 16 msg
  let h := foldBlocks 128 sha512Compress padded.length sha512Init padded
  natToBytesBE 8 h.a ++ natToBytesBE 8 h.b ++ natToBytesBE 8 h.c ++ natToBytesBE 8 h.d ++
  natToBytesBE 8 h.e ++ natToBytesBE 8 h.f ++ natToBytesBE 8 h.g ++ natToBytesBE 8 h.h

/- ## HMAC (hmac.new, RFC 2104) and digest selection -/

/-- The digest algorithms the program can pass to hmac.new. -/
inductive DigestAlg where
  | sha1
  | sha512
deriving DecidableEq

/-- The underlying hash of a digest algorithm. -/
def digestHash : DigestAlg → List Nat → List Nat
  | .sha1 => sha1
  | .sha512 => sha512

/-- The HMAC block size of a digest algorithm, in bytes. -/
def digestBlockSize : DigestAlg → Nat
  | .sha1 => 64
  | .sha512 => 128

/-- HMAC: keys longer than the block size are first hashed, then
zero-padded to the block size; two-pass construction with 0x36/0x5c pads. -/
def hmacBytes (alg : DigestAlg) (key msg : List Nat) : List Nat :=
  let hash := digestHash alg
  let bs := digestBlockSize alg
  let k0 := if bs < key.length then hash key else key
  let k := k0 ++ List.replicate (bs - k0.length) 0
  hash ((k.map (fun b => b ^^^ 0x5c)) ++ hash ((k.map (fun b => b ^^^ 0x36)) ++ msg))

/- ## Base32 decoding (base64.b32decode with casefold=True) -/

/-- Value of one RFC 4648 base32 alphabet character (after upper-casing). -/
def b32Val (c : Char) : Option Nat :=
  if 'A' ≤ c ∧ c ≤ 'Z' then some (c.toNat - 65)
  else if '2' ≤ c ∧ c ≤ '7' then some (c.toNat - 50 + 26)
  else none

/-- Drop the trailing run of '=' characters (bytes.rstrip of the pad). -/
def stripTrailEq (s : List Char) : List Char :=
  ((s.reverse.dropWhile (fun c => c = '=')).reverse)

/-- Decode base32 values to bytes: full eight-character quanta give five
bytes; the final partial quantum is left-shifted by five bits per pad
character and contributes its leading `(8 - pad) * 5 / 8` bytes. -/
def b32Assemble : List Nat → Nat → List Nat
  | v1 :: v2 :: v3 :: v4 :: v5 :: v6 :: v7 :: v8 :: rest, pad =>
      natToBytesBE 5 (((((((v1 * 32 + v2) * 32 + v3) * 32 + v4) * 32 + v5) * 32 + v6) * 32 + v7) * 32 + v8) ++
      b32Assemble rest pad
  | [], _ => []
  | part, pad =>
      (natToBytesBE 5 ((part.foldl (fun a v => a * 32 + v) 0) <<< (5 * pad))).take ((8 - pad) * 5 / 8)

/-- base64.b32decode(s, casefold=True): rejects non-ASCII input, input whose
length is not a multiple of eight, non-alphabet characters, and pad-character
counts other than 0, 1, 3, 4, 6; error messages follow binascii. -/
def b32decode (s : String) : Except String (List Nat) :=
  if s.data.any (fun c => 127 < c.toNat) then
    .error "string argument should contain only ASCII characters"
  else if s.data.length % 8 ≠ 0 then .error "Incorrect padding"
  else
    let up := s.data.map Char.toUpper
    let stripped := stripTrailEq up
    let pad := up.length - stripped.length
    match stripped.mapM b32Val with
    | none => .error "Non-base32 digit found"
    | some vals =>
      if pad = 0 ∨ pad = 1 ∨ pad = 3 ∨ pad = 4 ∨ pad = 6 then .ok (b32Assemble vals pad)
      else .error "Incorrect padding"

/- ## HOTP and TOTP (pyotp) -/

/-- pyotp.OTP.byte_secret: pad the stored secret with '=' up to a multiple
of eight characters, then base32-decode it case-insensitively. -/
def byte_secret (secret : String) : Except String (List Nat) :=
  let missing := secret.length % 8
  let padded := if missing ≠ 0 then secret ++ String.mk (List.replicate (8 - missing) '=') else secret
  b32decode padded

/-- pyotp.OTP.int_to_bytestring: the counter as eight big-endian bytes. -/
def int_to_bytestring (counter : Nat) : List Nat := natToBytesBE 8 counter

/-- pyotp.OTP.generate_otp on a decoded key: HMAC the eight-byte counter,
apply RFC 4226 dynamic truncation, reduce modulo 10^digits, and keep the
last `digits` characters of the decimal rendering of 10^10 + value. -/
def hotpCode (alg : DigestAlg) (key : List Nat) (counter digits : Nat) : String :=
  let h := hmacBytes alg key (int_to_bytestring counter)
  let offset := (h.getLastD 0) &&& 0xF
  let code := ((h.getD offset 0 &&& 0x7F) <<< 24) ||| ((h.getD (offset + 1) 0 &&& 0xFF) <<< 16) |||
              ((h.getD (offset + 2) 0 &&& 0xFF) <<< 8) ||| (h.getD (offset + 3) 0 &&& 0xFF)
  let s := (Nat.repr (10000000000 + code % 10 ^ digits)).data
  String.mk (s.drop (s.length - digits))

/-- pyotp.TOTP.timecode: the unix time divided by the interval, floored. -/
def timecode (interval t : Nat) : Nat := t / interval

/-- pyotp.TOTP(secret, digits, digest, interval).now() at unix time `now`:
decode the secret and evaluate HOTP at counter `timecode interval now`.
Decoding failures carry the binascii error message. -/
def totpNow (secret : String) (digits : Nat) (alg : DigestAlg) (interval now : Nat) :
    Except String String :=
  (byte_secret secret).map (fun key => hotpCode alg key (timecode interval now) digits)

/-- generate_totp from main.py: pyotp.TOTP(secret).now(), i.e. all
parameters left at their defaults: six digits, SHA-1, a 30-second period.
The wall-clock reading is passed explicitly as `now`. -/
def generate_totp (secret : String) (now : Nat) : Except String String :=
  totpNow secret 6 .sha1 30 now

/- ## URI locator (find_totp_url) -/

/-- Characters matched by Python's regex class \s on str (str.isspace). -/
def isPySpace (c : Char) : Bool :=
  c = ' ' ∨ c = '\t' ∨ c = '\n' ∨ c = '\x0b' ∨ c = '\x0c' ∨ c = '\r' ∨
  c = '\x1c' ∨ c = '\x1d' ∨ c = '\x1e' ∨ c = '\x1f' ∨ c = '\x85' ∨ c = '\xa0' ∨
  c = ' ' ∨ (' ' ≤ c ∧ c ≤ ' ') ∨ c = ' ' ∨ c = ' ' ∨
  c = ' ' ∨ c = ' ' ∨ c = '　'

/-- The literal part of the regex otpauth://[^\s]+ . -/
def otpauthLit : List Char := ['o', 't', 'p', 'a', 'u', 't', 'h', ':', '/', '/']

/-- re.findall of otpauth://[^\s]+ : scan left to right; at a position where
the literal is followed by at least one non-whitespace character, emit the
literal plus the maximal non-whitespace run and resume after it (matches do
not overlap); otherwise advance one character. Fuel-driven; the input length
is always enough fuel since every step consumes at least one character. -/
def findAllOtpauth : Nat → List Char → List (List Char)
  | 0, _ => []
  | _ + 1, [] => []
  | fuel + 1, c :: rest =>
    if otpauthLit.isPrefixOf (c :: rest) then
      let tail := (c :: rest).drop 10
      let run := tail.takeWhile (fun ch => ! isPySpace ch)
      if run.isEmpty then findAllOtpauth fuel rest
      else (otpauthLit ++ run) :: findAllOtpauth fuel (tail.drop run.length)
    else findAllOtpauth fuel rest

/-- All regex matches in a text, as strings. -/
def findall (text : String) : List String :=
  (findAllOtpauth text.data.length text.data).map String.mk

/-- The error cases of find_totp_url (each a ValueError in the source). -/
inductive FindErr where
  | noUriFound
  | multipleUrls
deriving DecidableEq

/-- find_totp_url from main.py: error on zero or several matches, otherwise
the single match. -/
def find_totp_url (text : String) : Except FindErr String :=
  match findall text with
  | [] => .error .noUriFound
  | [u] => .ok u
  | _ => .error .multipleUrls

/- ## Percent decoding (urllib.parse.unquote with utf-8 / replace) -/

/-- Hexadecimal digit test. -/
def isHexDigit (c : Char) : Bool :=
  ('0' ≤ c ∧ c ≤ '9') ∨ ('a' ≤ c ∧ c ≤ 'f') ∨ ('A' ≤ c ∧ c ≤ 'F')

/-- Value of a hexadecimal digit. -/
def hexVal (c : Char) : Nat :=
  if '0' ≤ c ∧ c ≤ '9' then c.toNat - 48
  else if 'a' ≤ c ∧ c ≤ 'f' then c.toNat - 87
  else if 'A' ≤ c ∧ c ≤ 'F' then c.toNat - 55
  else 0

/-- Is the byte a UTF-8 continuation byte (0x80..0xBF)? -/
def isCont (b : Nat) : Bool := 128 ≤ b ∧ b ≤ 191

/-- The Unicode replacement character U+FFFD. -/
def fffd : Char := Char.ofNat 0xFFFD

/-- Decode a byte sequence as UTF-8 with the `replace` error handler:
each maximal subpart of an ill-formed sequence yields one U+FFFD, as in
CPython's decoder. Continuation-byte range checks follow the Unicode
well-formedness table, so surrogates and overlong forms are rejected. -/
def utf8Replace : List Nat → List Char
  | [] => []
  | b :: rest =>
    if b < 128 then Char.ofNat b :: utf8Replace rest
    else if 194 ≤ b ∧ b ≤ 223 then
      match rest with
      | [] => [fffd]
      | c1 :: rest' =>
        if isCont c1 then Char.ofNat ((b - 192) * 64 + (c1 - 128)) :: utf8Replace rest'
        else fffd :: utf8Replace (c1 :: rest')
    else if 224 ≤ b ∧ b ≤ 239 then
      match rest with
      | [] => [fffd]
      | c1 :: rest' =>
        let okC1 :=
          if b = 224 then 160 ≤ c1 ∧ c1 ≤ 191
          else if b = 237 then 128 ≤ c1 ∧ c1 ≤ 159
          else isCont c1
        if okC1 then
          match rest' with
          | [] => [fffd]
          | c2 :: rest'' =>
            if isCont c2 then
              Char.ofNat ((b - 224) * 4096 + (c1 - 128) * 64 + (c2 - 128)) :: utf8Replace rest''
            else fffd :: utf8Replace (c2 :: rest'')
        else fffd :: utf8Replace (c1 :: rest')
    else if 240 ≤ b ∧ b ≤ 244 then
      match rest with
      | [] => [fffd]
      | c1 :: rest' =>
        let okC1 :=
          if b = 240 then 144 ≤ c1 ∧ c1 ≤ 191
          else if b = 244 then 128 ≤ c1 ∧ c1 ≤ 143
          else isCont c1
        if okC1 then
          match rest' with
          | [] => [fffd]
          | c2 :: rest'' =>
            if isCont c2 then
              match rest'' with
              | [] => [fffd]
              | c3 :: rest3 =>
                if isCont c3 then
                  Char.ofNat ((b - 240) * 262144 + (c1 - 128) * 4096 + (c2 - 128) * 64 + (c3 - 128)) ::
                    utf8Replace rest3
                else fffd :: utf8Replace (c3 :: rest3)
            else fffd :: utf8Replace (c2 :: rest'')
        else fffd :: utf8Replace (c1 :: rest')
    else fffd :: utf8Replace rest

/-- unquote_to_bytes on an ASCII run: a percent sign followed by two hex
digits becomes that byte; otherwise the percent sign stays a literal byte,
and what follows is rescanned (a new escape can begin only at the next
percent sign). Fuel-driven; each step consumes at least one character, so
the list length is always enough fuel. -/
def percentBytesAux : Nat → List Char → List Nat
  | 0, l => l.map Char.toNat
  | _ + 1, [] => []
  | fuel + 1, '%' :: a :: b :: rest =>
    if isHexDigit a ∧ isHexDigit b then (hexVal a * 16 + hexVal b) :: percentBytesAux fuel rest
    else 37 :: percentBytesAux fuel (a :: b :: rest)
  | _ + 1, '%' :: rest => 37 :: rest.map Char.toNat
  | fuel + 1, c :: rest => c.toNat :: percentBytesAux fuel rest

def percentBytes (l : List Char) : List Nat := percentBytesAux l.length l

/-- One maximal ASCII run of unquote: runs without a percent sign pass
through; otherwise the run is percent-decoded to bytes and those bytes are
decoded as UTF-8 with replacement. -/
def unquoteRun (run : List Char) : List Char :=
  if run.contains '%' then utf8Replace (percentBytes run) else run

/-- urllib.parse.unquote on text: percent decoding applies within maximal
ASCII runs; non-ASCII characters pass through unchanged and break runs
(CPython splits on [\x00-\x7f]+ and decodes each ASCII chunk separately). -/
def unquoteAux (acc : List Char) : List Char → List Char
  | [] => unquoteRun acc.reverse
  | c :: rest =>
    if c.toNat ≤ 127 then unquoteAux (c :: acc) rest
    else unquoteRun acc.reverse ++ c :: unquoteAux [] rest

def unquote (s : List Char) : List Char := unquoteAux [] s

/- ## urllib.parse.urlsplit (CPython 3.11) -/

/-- Characters allowed in a URL scheme after the first letter. -/
def isSchemeChar (c : Char) : Bool :=
  ('a' ≤ c ∧ c ≤ 'z') ∨ ('A' ≤ c ∧ c ≤ 'Z') ∨ ('0' ≤ c ∧ c ≤ '9') ∨
  c = '+' ∨ c = '-' ∨ c = '.'

/-- An ASCII letter (url[0].isascii() and url[0].isalpha()). -/
def isAsciiAlpha (c : Char) : Bool := ('a' ≤ c ∧ c ≤ 'z') ∨ ('A' ≤ c ∧ c ≤ 'Z')

/-- An ASCII decimal digit. -/
def isAsciiDigit (c : Char) : Bool := '0' ≤ c ∧ c ≤ '9'

/-- Split a list at the first occurrence of `sep`, dropping the separator;
the second component is empty when `sep` does not occur. -/
def splitFirst (sep : Char) (l : List Char) : List Char × List Char :=
  match l.span (fun c => c ≠ sep) with
  | (pre, _ :: post) => (pre, post)
  | (pre, []) => (pre, [])

/-- Scheme detection of urlsplit: if the text before the first colon is
nonempty, starts with an ASCII letter and consists of scheme characters,
it is the (lower-cased) scheme and parsing continues after the colon. -/
def schemeSplit (url : List Char) : List Char × List Char :=
  match url.span (fun c => c ≠ ':') with
  | (pre, ':' :: rest) =>
    if pre ≠ [] ∧ isAsciiAlpha (pre.headD ' ') ∧ pre.all isSchemeChar then
      (pre.map Char.toLower, rest)
    else ([], url)
  | _ => ([], url)

/-- Split on a separator character, keeping empty segments, as str.split. -/
def splitOnChar (sep : Char) : List Char → List (List Char)
  | [] => [[]]
  | c :: rest =>
    let r := splitOnChar sep rest
    if c = sep then [] :: r
    else match r with
      | h :: t => (c :: h) :: t
      | [] => [[c]]

/- Bracketed-host validation: urllib.parse._check_bracketed_host delegates
to ipaddress.ip_address, so the IPv4 and IPv6 textual grammars of the
ipaddress module are embedded below (validity only; the accepted address
value is never used). -/

/-- ipaddress._parse_octet: a dotted-quad octet is nonempty, ASCII decimal
digits only, at most three characters, without a leading zero, and at most
255. -/
def validOctet (s : List Char) : Bool :=
  s ≠ [] ∧ s.all isAsciiDigit ∧ s.length ≤ 3 ∧
  (s = ['0'] ∨ s.headD ' ' ≠ '0') ∧
  s.foldl (fun a c => a * 10 + (c.toNat - 48)) 0 ≤ 255

/-- ipaddress.IPv4Address: exactly four '.'-separated valid octets. -/
def isValidIPv4 (s : List Char) : Bool :=
  match splitOnChar '.' s with
  | [a, b, c, d] => validOctet a ∧ validOctet b ∧ validOctet c ∧ validOctet d
  | _ => false

/-- ipaddress._parse_hextet: one to four hexadecimal digits. -/
def validHextet (s : List Char) : Bool :=
  s ≠ [] ∧ s.length ≤ 4 ∧ s.all isHexDigit

/-- The hextet-layout check of ipaddress.IPv6Address._ip_int_from_string on
the ':'-separated parts (an embedded IPv4 tail has already been replaced
by two hextets): at most nine parts; at most one empty inner part, the
'::' gap, where an empty end part is legal only as part of that gap and at
least one zero group must remain to insert; without a gap, exactly eight
parts, none empty; every counted part a valid hextet. -/
def checkIPv6Parts (parts : List (List Char)) : Bool :=
  let n := parts.length
  if 9 < n then false
  else
    let inner := (parts.drop 1).dropLast
    let nEmpty := inner.countP (fun p => p.isEmpty)
    if 2 ≤ nEmpty then false
    else if nEmpty = 1 then
      let skip := 1 + inner.findIdx (fun p => p.isEmpty)
      let headEmpty := (parts.headD []).isEmpty
      let lastEmpty := (parts.getLastD []).isEmpty
      let hi := if headEmpty then skip - 1 else skip
      let lo := if lastEmpty then n - skip - 2 else n - skip - 1
      if headEmpty ∧ hi ≠ 0 then false
      else if lastEmpty ∧ lo ≠ 0 then false
      else if 8 ≤ hi + lo then false
      else (parts.take hi).all validHextet ∧ (parts.drop (n - lo)).all validHextet
    else
      n = 8 ∧ ¬ (parts.headD []).isEmpty ∧ ¬ (parts.getLastD []).isEmpty ∧
      parts.all validHextet

/-- ipaddress.IPv6Address validity: an optional nonempty '%'-scope without
a further percent sign; a nonempty address of at most 45 characters with
at least two colons; an embedded IPv4 tail must itself be valid and counts
as two hextets; then the hextet-layout check. -/
def isValidIPv6 (s0 : List Char) : Bool :=
  let addr := (splitFirst '%' s0).1
  let scope := (splitFirst '%' s0).2
  if s0.contains '%' ∧ (scope.isEmpty ∨ scope.contains '%') then false
  else if addr.isEmpty ∨ 45 < addr.length then false
  else
    let parts := splitOnChar ':' addr
    if parts.length < 3 then false
    else if (parts.getLastD []).contains '.' then
      if isValidIPv4 (parts.getLastD []) then
        checkIPv6Parts (parts.dropLast ++ [['0'], ['0']])
      else false
    else checkIPv6Parts parts

/-- The backslash, apostrophe and double-quote characters, kept out of
literals for the repr builder below. -/
def bslashChar : Char := Char.ofNat 92

def squoteChar : Char := Char.ofNat 39

def dquoteChar : Char := Char.ofNat 34

/-- One character of a Python string repr quoted with `q`: backslashes and
the quote are escaped, tab, newline and carriage return become two-letter
escapes, remaining C0 controls and DEL become hexadecimal escapes. Python
would also hex-escape unprintable characters above ASCII; those are kept
verbatim here, and no input reaching this function through the program
carries one inside an error message that the claims inspect. -/
def pyReprChar (q c : Char) : List Char :=
  if c = bslashChar then [bslashChar, bslashChar]
  else if c = q then [bslashChar, q]
  else if c = '\t' then [bslashChar, 't']
  else if c = '\n' then [bslashChar, 'n']
  else if c = '\r' then [bslashChar, 'r']
  else if c.toNat < 32 ∨ c.toNat = 127 then
    [bslashChar, 'x',
     (if c.toNat / 16 < 10 then Char.ofNat (48 + c.toNat / 16) else Char.ofNat (87 + c.toNat / 16)),
     (if c.toNat % 16 < 10 then Char.ofNat (48 + c.toNat % 16) else Char.ofNat (87 + c.toNat % 16))]
  else [c]

/-- Python repr of a string as it appears in ipaddress error messages:
single-quoted, except double-quoted when the text contains an apostrophe
but no double quote. -/
def pyRepr (s : List Char) : String :=
  let q := if s.contains squoteChar ∧ ¬ s.contains dquoteChar then dquoteChar else squoteChar
  String.mk (q :: (s.map (pyReprChar q)).flatten ++ [q])

/-- urllib.parse._check_bracketed_host on the text between the brackets:
a host starting with 'v' must match the IPvFuture pattern
v[0-9a-fA-F]+\.[^newline]+ ; anything else goes to ipaddress.ip_address,
where a valid IPv4 address is rejected as not bracketable, a valid IPv6
address is accepted, and everything else raises the generic ipaddress
error. Returns the ValueError message, or none when the host is valid. -/
def checkBracketedHost (host : List Char) : Option String :=
  match host with
  | 'v' :: tail =>
    let hexes := tail.takeWhile isHexDigit
    let rest := tail.drop hexes.length
    if ¬ hexes.isEmpty ∧ rest.headD ' ' = '.' ∧ ¬ (rest.drop 1).isEmpty ∧
        (rest.drop 1).all (fun c => c ≠ '\n') then none
    else some "IPvFuture address is invalid"
  | _ =>
    if isValidIPv4 host then some "An IPv4 address cannot be in brackets"
    else if isValidIPv6 host then none
    else some (pyRepr host ++ " does not appear to be an IPv4 or IPv6 address")

/-- The characters whose NFKC normalization contains one of the URL
delimiters / ? # @ : — exhaustively, U+2047..U+2049 (the doubled question
and exclamation marks), U+2100, U+2101, U+2105, U+2106 (letterlike symbols
such as the account sign, which expands to a/c), U+2A74 (double colon
equal), U+FE13, U+FE16, U+FE55, U+FE56, U+FE5F, U+FE6B (vertical and small
forms) and U+FF03, U+FF0F, U+FF1A, U+FF1F, U+FF20 (fullwidth forms).
urllib.parse._checknetloc raises exactly when the netloc carries one of
these: the netloc itself never contains the five delimiters (urlsplit
stops the netloc at / ? # and strips @ and : before normalizing), those
five ASCII characters appear in no canonical decomposition, and canonical
composition never produces ASCII, so NFKC of the stripped netloc contains
a delimiter precisely when some single character compatibility-decomposes
to one. -/
def nfkcUnsafe (c : Char) : Bool :=
  c.toNat ∈ [0x2047, 0x2048, 0x2049, 0x2100, 0x2101, 0x2105, 0x2106, 0x2A74,
    0xFE13, 0xFE16, 0xFE55, 0xFE56, 0xFE5F, 0xFE6B, 0xFF03, 0xFF0F, 0xFF1A, 0xFF1F, 0xFF20]

/-- The five components of urllib.parse.urlsplit. -/
structure SplitResult where
  scheme : String
  netloc : String
  path : String
  query : String
  fragment : String
deriving DecidableEq

/-- urllib.parse.urlsplit as in CPython 3.11: strip leading C0 controls
and spaces (the WHATWG rule), remove tab, carriage return and newline
anywhere; split off the scheme; when the remainder starts with // take the
netloc up to the first of / ? #, raising ValueError (here: an error value
carrying the message) on a mismatched IPv6 bracket and validating the text
between brackets as an IPvFuture or IPv6 literal; then split the fragment
at the first # and the query at the first ?, and finally reject a netloc
carrying characters that NFKC-normalize into URL delimiters. -/
def urlsplit (url0 : String) : Except String SplitResult :=
  let u0 := url0.data.dropWhile (fun c => c.toNat ≤ 32)
  let u1 := u0.filter (fun c => ¬(c = '\t' ∨ c = '\r' ∨ c = '\n'))
  let (scheme, u2) := schemeSplit u1
  let (netloc, u3) :=
    if u2.take 2 = ['/', '/'] then (u2.drop 2).span (fun c => ¬(c = '/' ∨ c = '?' ∨ c = '#'))
    else ([], u2)
  if (netloc.contains '[' ∧ ¬ netloc.contains ']') ∨
     (netloc.contains ']' ∧ ¬ netloc.contains '[') then
    .error "Invalid IPv6 URL"
  else
    match
      (if netloc.contains '[' ∧ netloc.contains ']' then
        checkBracketedHost (splitFirst ']' (splitFirst '[' netloc).2).1
      else none) with
    | some msg => .error msg
    | none =>
      let (u4, fragment) := splitFirst '#' u3
      let (path, query) := splitFirst '?' u4
      if netloc.any nfkcUnsafe then
        .error ("netloc '" ++ String.mk netloc ++
          "' contains invalid characters under NFKC normalization")
      else
        .ok ⟨String.mk scheme, String.mk netloc, String.mk path, String.mk query,
             String.mk fragment⟩

/- ## parse_qs / parse_qsl (urllib.parse, default arguments) -/

/-- str.replace of '+' by ' ', applied before percent decoding. -/
def plusToSpace (l : List Char) : List Char :=
  l.map (fun c => if c = '+' then ' ' else c)

/-- parse_qsl with default arguments: split the query on '&'; drop empty
fields, fields without '=', and fields whose raw value is empty
(keep_blank_values=False); names and values get '+' replaced by a space
and are percent-decoded. -/
def parse_qsl (qs : List Char) : List (String × String) :=
  (splitOnChar '&' qs).filterMap (fun field =>
    if field.isEmpty then none
    else match splitFirst '=' field with
      | (_, []) =>
        if field.contains '=' then
          none  -- an '=' at the very end: the value is empty, field dropped
        else none  -- no '=' at all: control name without a value, dropped
      | (name, value) =>
        some (String.mk (unquote (plusToSpace name)), String.mk (unquote (plusToSpace value))))

/-- parse_qs: fold the pairs of parse_qsl into an insertion-ordered
dictionary from names to the list of their values, in order. -/
def insertQ : List (String × List String) → String → String → List (String × List String)
  | [], k, v => [(k, [v])]
  | (k', vs) :: rest, k, v =>
    if k' = k then (k', vs ++ [v]) :: rest else (k', vs) :: insertQ rest k v

def parse_qs (qs : List Char) : List (String × List String) :=
  (parse_qsl qs).foldl (fun d p => insertQ d p.1 p.2) []

/-- Python dict lookup on the association list built by parse_qs. -/
def dictLookup (k : String) : List (String × List String) → Option (List String)
  | [] => none
  | (k', vs) :: rest => if k' = k then some vs else dictLookup k rest

/- ## get_secret_from_url (main.py) -/

/-- The failure causes of get_secret_from_url. Every exception inside its
try block — the explicit missing-secret ValueError as well as any error
raised by urlparse — is caught and re-raised with the message prefix
"Failed to parse TOTP URL: ", so both causes share that prefix. -/
inductive SecretErr where
  | missingSecret
  | urlsplitFailed (msg : String)
deriving DecidableEq

/-- The message carried by the re-raised ValueError. -/
def secretErrMsg : SecretErr → String
  | .missingSecret =>
      "Failed to parse TOTP URL: The TOTP URL is missing the 'secret' parameter."
  | .urlsplitFailed m => "Failed to parse TOTP URL: " ++ m

/-- get_secret_from_url from main.py: urlparse the URL, parse_qs its query,
fail when the 'secret' key is absent, otherwise return the first value. -/
def get_secret_from_url (url : String) : Except SecretErr String :=
  match urlsplit url with
  | .error m => .error (.urlsplitFailed m)
  | .ok r =>
    match dictLookup "secret" (parse_qs r.query.data) with
    | none => .error .missingSecret
    | some vs => .ok (vs.headD "")

/- ## The CLI entry point (main) -/

/-- The core failures main can catch: both locator errors, both parse
failures, and a base32 decoding error inside generate_totp (binascii.Error
is a ValueError subclass, so main's handler catches it too). -/
inductive CoreErr where
  | noUriFound
  | multipleUrls
  | secretErr (e : SecretErr)
  | base32Err (msg : String)
deriving DecidableEq

/-- The message str(e) main prints for each core failure. -/
def coreErrMsg : CoreErr → String
  | .noUriFound => "No TOTP URL found in the input."
  | .multipleUrls => "Multiple TOTP URLs found in the input."
  | .secretErr e => secretErrMsg e
  | .base32Err m => m

/-- The try-block of main up to the print: locate the URL in the stdin
text, extract the secret, compute the code at wall-clock time `now`. -/
def corePipeline (stdinContent : String) (now : Nat) : Except CoreErr String :=
  match find_totp_url stdinContent with
  | .error .noUriFound => .error .noUriFound
  | .error .multipleUrls => .error .multipleUrls
  | .ok url =>
    match get_secret_from_url url with
    | .error e => .error (.secretErr e)
    | .ok secret =>
      match generate_totp secret now with
      | .error m => .error (.base32Err m)
      | .ok code => .ok code

/-- The observable outcome of one run of main: the process exit code and
the lines written to stdout and stderr, in order. -/
structure RunResult where
  exitCode : Nat
  stdoutLines : List String
  stderrLines : List String
deriving DecidableEq

/-- main from main.py, with the effects made explicit: stdin is a string,
the clock a number, and the clipboard collaborator an `Except` describing
whether pyperclip.copy would succeed (its error carries the exception
text). On a core error main prints "Error: " plus the message to stderr
and exits 1; on success it prints the code to stdout and exits 0, copying
to the clipboard only under --copy, where a clipboard failure is reported
as a warning on stderr without affecting the exit code. -/
def mainRun (stdinContent : String) (copyFlag : Bool) (clipboard : Except String Unit)
    (now : Nat) : RunResult :=
  match corePipeline stdinContent now with
  | .error e => ⟨1, [], ["Error: " ++ coreErrMsg e]⟩
  | .ok code =>
    if copyFlag then
      match clipboard with
      | .ok _ => ⟨0, [code], ["Copied to clipboard."]⟩
      | .error m => ⟨0, [code], ["Warning: Could not copy to clipboard. " ++ m]⟩
    else ⟨0, [code], []⟩

/- ## Derived views used by the theorems -/

/-- The ordered list of values carried by the `secret` key of a query
string, as parse_qsl produces them. -/
def secretValues (q : String) : List String :=
  ((parse_qsl q.data).filter (fun p => p.1 = "secret")).map (fun p => p.2)

/-- The ordered list of values of key `k` among the pairs of a parsed
query string. -/
def valuesOf (k : String) (l : List (String × String)) : List String :=
  (l.filter (fun p => p.1 = k)).map (fun p => p.2)

/-- The text contains a substring matching otpauth://[^\s]+ : somewhere the
literal occurs followed by at least one non-whitespace character. -/
def otpauthMatchIn (text : String) : Prop :=
  ∃ pre c post, text.data = pre ++ otpauthLit ++ c :: post ∧ isPySpace c = false

/-- Did extraction fail because the URI could not be decomposed (the only
structural URI failure the code can produce)? -/
def isStructuralUriError : Except SecretErr String → Bool
  | .error (.urlsplitFailed _) => true
  | _ => false

/- ## Lemmas: parse_qs grouping preserves per-key value order -/

theorem dictLookup_insertQ_self (d : List (String × List String)) (k v : String) :
    dictLookup k (insertQ d k v) = some ((dictLookup k d).getD [] ++ [v]) := by
  induction d with
  | nil => simp [insertQ, dictLookup]
  | cons p rest ih =>
    obtain ⟨k', vs⟩ := p
    by_cases h : k' = k
    · subst h; simp [insertQ, dictLookup]
    · simp [insertQ, dictLookup, h, ih]

theorem dictLookup_insertQ_ne (d : List (String × List String)) (k k' v : String)
    (h : k' ≠ k) : dictLookup k (insertQ d k' v) = dictLookup k d := by
  induction d with
  | nil => simp [insertQ, dictLookup, h]
  | cons p rest ih =>
    obtain ⟨k'', vs⟩ := p
    by_cases h2 : k'' = k'
    · subst h2; simp [insertQ, dictLookup, h]
    · by_cases h3 : k'' = k <;> simp [insertQ, dictLookup, h2, h3, ih, Ne.symm h]

theorem dictLookup_foldl_insertQ (k : String) (l : List (String × String))
    (d : List (String × List String)) :
    dictLookup k (l.foldl (fun d p => insertQ d p.1 p.2) d) =
      match dictLookup k d, valuesOf k l with
      | none, [] => none
      | none, vs => some vs
      | some vs0, vs => some (vs0 ++ vs) := by
  induction l generalizing d with
  | nil =>
    cases hd : dictLookup k d <;> simp [valuesOf, hd]
  | cons p rest ih =>
    obtain ⟨k', v⟩ := p
    simp only [List.foldl_cons]
    rw [ih]
    rcases eq_or_ne k' k with rfl | h
    · rw [dictLookup_insertQ_self]
      have hv : valuesOf k' ((k', v) :: rest) = v :: valuesOf k' rest := by simp [valuesOf]
      rw [hv]
      cases hd : dictLookup k' d <;> simp [hd]
    · rw [dictLookup_insertQ_ne d k k' v h]
      have hv : valuesOf k ((k', v) :: rest) = valuesOf k rest := by simp [valuesOf, h]
      rw [hv]

theorem dictLookup_parse_qs (k : String) (q : List Char) :
    dictLookup k (parse_qs q) =
      match valuesOf k (parse_qsl q) with
      | [] => none
      | vs => some vs := by
  unfold parse_qs
  rw [dictLookup_foldl_insertQ]
  cases valuesOf k (parse_qsl q) <;> simp [dictLookup]

theorem secretValues_eq (q : String) :
    secretValues q = valuesOf "secret" (parse_qsl q.data) := rfl

/-- What get_secret_from_url returns, expressed through the ordered value
list of the `secret` key, whenever urlparse itself succeeds. -/
theorem get_secret_eq_secretValues (url : String) (r : SplitResult)
    (h : urlsplit url = .ok r) :
    get_secret_from_url url =
      match secretValues r.query with
      | [] => Except.error SecretErr.missingSecret
      | v :: _ => Except.ok v := by
  unfold get_secret_from_url
  rw [h, secretValues_eq]
  simp only []
  rw [dictLookup_parse_qs]
  cases hv : valuesOf "secret" (parse_qsl r.query.data) <;> simp

/- ## Claim theorems -/

/-- C3: for every URI (once urlparse decomposes it), extraction fails with
the missing-secret error exactly when the parsed query parameters carry no
`secret` key, and when they do, the first secret value is returned and that
failure does not occur. -/
theorem C3_missing_secret_characterization (url : String) (r : SplitResult)
    (h : urlsplit url = .ok r) :
    (get_secret_from_url url = Except.error SecretErr.missingSecret ↔
      secretValues r.query = []) ∧
    (∀ v vs, secretValues r.query = v :: vs → get_secret_from_url url = Except.ok v) := by
  have heq := get_secret_eq_secretValues url r h
  constructor
  · rw [heq]
    cases hv : secretValues r.query <;> simp
  · intro v vs hv
    rw [heq, hv]

/-- C3 witness: on otpauth://totp/a?x=1 the query has no secret key and
extraction fails with the missing-secret error; on
otpauth://totp/a?secret=ZZZ it succeeds with that value. -/
theorem C3_missing_secret_characterization_witness :
    get_secret_from_url "otpauth://totp/a?x=1" = Except.error SecretErr.missingSecret ∧
    get_secret_from_url "otpauth://totp/a?secret=ZZZ" = Except.ok "ZZZ" :=
  ⟨(C3_missing_secret_characterization "otpauth://totp/a?x=1"
      ⟨"otpauth", "totp", "/a", "x=1", ""⟩ (by decide)).1.mpr (by decide),
   (C3_missing_secret_characterization "otpauth://totp/a?secret=ZZZ"
      ⟨"otpauth", "totp", "/a", "secret=ZZZ", ""⟩ (by decide)).2 "ZZZ" [] (by decide)⟩

/-- C6: when the query string carries the `secret` key more than once, the
extracted secret is the value of the first occurrence. -/
theorem C6_duplicate_secret_uses_first (url : String) (r : SplitResult)
    (v1 v2 : String) (vs : List String) (h : urlsplit url = .ok r)
    (hdup : secretValues r.query = v1 :: v2 :: vs) :
    get_secret_from_url url = Except.ok v1 := by
  rw [get_secret_eq_secretValues url r h, hdup]

/-- C6 witness: with secret=AAA&secret=BBB the first value AAA is used. -/
theorem C6_duplicate_secret_uses_first_witness :
    secretValues "secret=AAA&secret=BBB" = ["AAA", "BBB"] ∧
    get_secret_from_url "otpauth://totp/a?secret=AAA&secret=BBB" = Except.ok "AAA" :=
  ⟨by decide,
   C6_duplicate_secret_uses_first "otpauth://totp/a?secret=AAA&secret=BBB"
     ⟨"otpauth", "totp", "/a", "secret=AAA&secret=BBB", ""⟩ "AAA" "BBB" []
     (by decide) (by decide)⟩

/-- C10: the extracted secret depends only on the ordered `secret` value
list of the query: two URIs whose queries agree on it — whatever their
scheme, host, path, fragment or other parameters — extract identically. -/
theorem C10_secret_noninterference (u1 u2 : String) (r1 r2 : SplitResult)
    (h1 : urlsplit u1 = .ok r1) (h2 : urlsplit u2 = .ok r2)
    (hs : secretValues r1.query = secretValues r2.query) :
    get_secret_from_url u1 = get_secret_from_url u2 := by
  rw [get_secret_eq_secretValues u1 r1 h1, get_secret_eq_secretValues u2 r2 h2, hs]

/-- C10 witness: two URIs differing in scheme, host, path, fragment and the
other query parameters, agreeing only on the secret values, extract the
same secret. -/
theorem C10_secret_noninterference_witness :
    get_secret_from_url "otpauth://totp/alice?secret=ZZZ&x=1" =
      get_secret_from_url "http://other/path?y=2&secret=ZZZ#frag" :=
  C10_secret_noninterference _ _
    ⟨"otpauth", "totp", "/alice", "secret=ZZZ&x=1", ""⟩
    ⟨"http", "other", "/path", "y=2&secret=ZZZ", "frag"⟩
    (by decide) (by decide) (by decide)

/- ## Lemmas: the locator scan finds a match if and only if one exists -/

theorem no_match_nil :
    ¬ ∃ pre c post, ([] : List Char) = pre ++ otpauthLit ++ c :: post ∧
      isPySpace c = false := by
  rintro ⟨pre, c, post, h, -⟩
  have := congrArg List.length h
  simp [otpauthLit] at this
  omega

theorem match_cons_iff (ch : Char) (rest : List Char)
    (h0 : ¬ ∃ c post, (ch :: rest) = otpauthLit ++ c :: post ∧ isPySpace c = false) :
    ((∃ pre c post, ch :: rest = pre ++ otpauthLit ++ c :: post ∧ isPySpace c = false) ↔
     (∃ pre c post, rest = pre ++ otpauthLit ++ c :: post ∧ isPySpace c = false)) := by
  constructor
  · rintro ⟨pre, c, post, heq, hc⟩
    cases pre with
    | nil => exact absurd ⟨c, post, by simpa using heq, hc⟩ h0
    | cons p pre' =>
      rw [List.cons_append] at heq
      injection heq with h1 h2
      exact ⟨pre', c, post, h2, hc⟩
  · rintro ⟨pre, c, post, heq, hc⟩
    exact ⟨ch :: pre, c, post, by simp [heq], hc⟩

theorem findAllOtpauth_cons (fuel : Nat) (ch : Char) (rest : List Char) :
    findAllOtpauth (fuel + 1) (ch :: rest) =
      if otpauthLit.isPrefixOf (ch :: rest) then
        (if (((ch :: rest).drop 10).takeWhile (fun c => ! isPySpace c)).isEmpty then
          findAllOtpauth fuel rest
        else
          (otpauthLit ++ ((ch :: rest).drop 10).takeWhile (fun c => ! isPySpace c)) ::
            findAllOtpauth fuel
              (((ch :: rest).drop 10).drop
                ((((ch :: rest).drop 10).takeWhile (fun c => ! isPySpace c)).length)))
      else findAllOtpauth fuel rest := rfl

theorem findAllOtpauth_nil_iff (fuel : Nat) : ∀ s : List Char, s.length ≤ fuel →
    (findAllOtpauth fuel s = [] ↔
      ¬ ∃ pre c post, s = pre ++ otpauthLit ++ c :: post ∧ isPySpace c = false) := by
  induction fuel with
  | zero =>
    intro s hf
    have hs : s = [] := List.length_eq_zero.mp (Nat.le_zero.mp hf)
    subst hs
    exact iff_of_true rfl no_match_nil
  | succ fuel ih =>
    intro s hf
    match s with
    | [] => exact iff_of_true rfl no_match_nil
    | ch :: rest =>
      have hf' : rest.length ≤ fuel := by simp [List.length_cons] at hf; omega
      rw [findAllOtpauth_cons]
      by_cases hpre : otpauthLit.isPrefixOf (ch :: rest)
      · obtain ⟨t, ht⟩ := List.isPrefixOf_iff_prefix.mp hpre
        have hlen : otpauthLit.length = 10 := rfl
        have hdrop : (ch :: rest).drop 10 = t := by
          rw [← ht, ← hlen]; exact List.drop_left _ _
        rw [if_pos hpre, hdrop]
        cases t with
        | nil =>
          simp only [List.takeWhile_nil, List.isEmpty_nil, if_true]
          rw [ih rest hf']
          have h0 : ¬ ∃ c post, (ch :: rest) = otpauthLit ++ c :: post ∧
              isPySpace c = false := by
            rintro ⟨c, post, heq, -⟩
            have h2 : ([] : List Char) = c :: post :=
              List.append_cancel_left (ht.trans heq)
            exact List.noConfusion h2
          exact (not_congr (match_cons_iff ch rest h0)).symm
        | cons c' t' =>
          by_cases hsp : isPySpace c' = true
          · have hrun : (c' :: t').takeWhile (fun c => ! isPySpace c) = [] := by
              simp [List.takeWhile_cons, hsp]
            rw [hrun]
            simp only [List.isEmpty_nil, if_true]
            rw [ih rest hf']
            have h0 : ¬ ∃ c post, (ch :: rest) = otpauthLit ++ c :: post ∧
                isPySpace c = false := by
              rintro ⟨c, post, heq, hc⟩
              have h2 : (c' :: t' : List Char) = c :: post :=
                List.append_cancel_left (ht.trans heq)
              injection h2 with h3 h4
              rw [← h3, hsp] at hc
              exact Bool.noConfusion hc
            exact (not_congr (match_cons_iff ch rest h0)).symm
          · have hsp' : isPySpace c' = false := by
              cases hb : isPySpace c'
              · rfl
              · exact absurd hb hsp
            have hrun : (c' :: t').takeWhile (fun c => ! isPySpace c) =
                c' :: t'.takeWhile (fun c => ! isPySpace c) := by
              simp [List.takeWhile_cons, hsp']
            rw [hrun]
            simp only [List.isEmpty_cons, if_false]
            apply iff_of_false
            · simp
            · intro hno
              exact hno ⟨[], c', t', by simpa using ht.symm, hsp'⟩
      · rw [if_neg hpre]
        rw [ih rest hf']
        have h0 : ¬ ∃ c post, (ch :: rest) = otpauthLit ++ c :: post ∧
            isPySpace c = false := by
          rintro ⟨c, post, heq, -⟩
          exact hpre (List.isPrefixOf_iff_prefix.mpr ⟨c :: post, heq.symm⟩)
        exact (not_congr (match_cons_iff ch rest h0)).symm

/-- C5: the locator fails with no-URI-found exactly when the text contains
no substring matching otpauth:// followed by a non-whitespace character,
fails with multiple-URLs exactly when the left-to-right non-overlapping
scan yields two or more matches, and returns the unique match unchanged
otherwise. -/
theorem C5_locator_cardinality (text : String) :
    (find_totp_url text = Except.error FindErr.noUriFound ↔ ¬ otpauthMatchIn text) ∧
    (find_totp_url text = Except.error FindErr.multipleUrls ↔ 2 ≤ (findall text).length) ∧
    (∀ u, findall text = [u] → find_totp_url text = Except.ok u) := by
  have hnil : findall text = [] ↔ ¬ otpauthMatchIn text := by
    unfold findall otpauthMatchIn
    rw [List.map_eq_nil_iff]
    exact findAllOtpauth_nil_iff text.data.length text.data le_rfl
  refine ⟨?_, ?_, ?_⟩
  · rw [← hnil]
    unfold find_totp_url
    cases h : findall text with
    | nil => simp
    | cons u us => cases us <;> simp
  · unfold find_totp_url
    cases h : findall text with
    | nil => simp
    | cons u us =>
      cases us with
      | nil => simp
      | cons v vs => simp
  · intro u hu
    unfold find_totp_url
    rw [hu]

/-- C5 witness: a text with exactly one match returns it unchanged. -/
theorem C5_locator_cardinality_witness :
    findall "see otpauth://totp/a?secret=B now" = ["otpauth://totp/a?secret=B"] ∧
    find_totp_url "see otpauth://totp/a?secret=B now" =
      Except.ok "otpauth://totp/a?secret=B" :=
  ⟨by decide,
   (C5_locator_cardinality "see otpauth://totp/a?secret=B now").2.2
     "otpauth://totp/a?secret=B" (by decide)⟩

/-- C9: with the default 30-second period, a timestamp on a period boundary
and the boundary plus 29 seconds share a counter window and produce the
same code, while the boundary plus 30 seconds has a different counter
(counter transitions are inclusive on the new side). -/
theorem C9_period_boundary (secret : String) (t : Nat) (h : t % 30 = 0) :
    timecode 30 (t + 29) = timecode 30 t ∧
    generate_totp secret (t + 29) = generate_totp secret t ∧
    timecode 30 (t + 30) ≠ timecode 30 t := by
  have h29 : timecode 30 (t + 29) = timecode 30 t := by unfold timecode; omega
  refine ⟨h29, ?_, by unfold timecode; omega⟩
  unfold generate_totp totpNow
  rw [h29]

/-- C9 witness at the boundary t = 30. -/
theorem C9_period_boundary_witness :
    (30 : Nat) % 30 = 0 ∧
    generate_totp "JBSWY3DPEHPK3PXP" (30 + 29) = generate_totp "JBSWY3DPEHPK3PXP" 30 ∧
    timecode 30 (30 + 30) ≠ timecode 30 30 :=
  ⟨rfl, (C9_period_boundary "JBSWY3DPEHPK3PXP" 30 rfl).2.1,
   (C9_period_boundary "JBSWY3DPEHPK3PXP" 30 rfl).2.2⟩

/-- C7: main exits 0 on success with the code as the only stdout line, and
on any core failure exits 1 printing "Error: " plus the message to stderr,
regardless of the copy flag and the clipboard outcome. -/
theorem C7_exit_code_contract (stdin : String) (copy : Bool)
    (clip : Except String Unit) (t : Nat) :
    (∀ e, corePipeline stdin t = Except.error e →
      mainRun stdin copy clip t = ⟨1, [], ["Error: " ++ coreErrMsg e]⟩) ∧
    (∀ code, corePipeline stdin t = Except.ok code →
      (mainRun stdin copy clip t).exitCode = 0 ∧
      (mainRun stdin copy clip t).stdoutLines = [code]) := by
  constructor
  · intro e he
    unfold mainRun
    rw [he]
  · intro code hc
    unfold mainRun
    rw [hc]
    cases copy <;> cases clip <;> simp

/-- C7 witness: a secret-free stdin fails, exits 1 with the prefixed
message on stderr. -/
theorem C7_exit_code_contract_witness :
    corePipeline "no url here" 0 = Except.error CoreErr.noUriFound ∧
    mainRun "no url here" false (.ok ()) 0 =
      ⟨1, [], ["Error: No TOTP URL found in the input."]⟩ :=
  ⟨by decide,
   ((C7_exit_code_contract "no url here" false (.ok ()) 0).1
      CoreErr.noUriFound (by decide)).trans (by decide)⟩

/-- C8: when the code has been computed and the clipboard write fails, the
run still succeeds: exit code 0, the code on stdout, and only a warning on
stderr. -/
theorem C8_clipboard_failure_nonfatal (stdin : String) (t : Nat) (code m : String)
    (h : corePipeline stdin t = Except.ok code) :
    mainRun stdin true (.error m) t =
      ⟨0, [code], ["Warning: Could not copy to clipboard. " ++ m]⟩ := by
  unfold mainRun
  rw [h]
  rfl

/-- C8 witness: concrete run with a failing clipboard still exits 0 with
the code printed. -/
theorem C8_clipboard_failure_nonfatal_witness :
    corePipeline "otpauth://totp/test?secret=JBSWY3DPEHPK3PXP" 0 = Except.ok "282760" ∧
    mainRun "otpauth://totp/test?secret=JBSWY3DPEHPK3PXP" true
        (.error "Clipboard not available") 0 =
      ⟨0, ["282760"], ["Warning: Could not copy to clipboard. Clipboard not available"]⟩ :=
  ⟨by decide,
   (C8_clipboard_failure_nonfatal "otpauth://totp/test?secret=JBSWY3DPEHPK3PXP" 0
      "282760" "Clipboard not available" (by decide)).trans (by decide)⟩

/- ## Sanity vectors for the embedded digests -/

theorem sha1_abc_vector :
    sha1 [97, 98, 99] = [0xa9, 0x99, 0x3e, 0x36, 0x47, 0x06, 0x81, 0x6a, 0xba, 0x3e,
      0x25, 0x71, 0x78, 0x50, 0xc2, 0x6c, 0x9c, 0xd0, 0xd8, 0x9d] := by decide

theorem sha512_abc_vector :
    sha512 [97, 98, 99] = [0xdd, 0xaf, 0x35, 0xa1, 0x93, 0x61, 0x7a, 0xba, 0xcc, 0x41,
      0x73, 0x49, 0xae, 0x20, 0x41, 0x31, 0x12, 0xe6, 0xfa, 0x4e, 0x89, 0xa9, 0x7e, 0xa2,
      0x0a, 0x9e, 0xee, 0xe6, 0x4b, 0x55, 0xd3, 0x9a, 0x21, 0x92, 0x99, 0x2a, 0x27, 0x4f,
      0xc1, 0xa8, 0x36, 0xba, 0x3c, 0x23, 0xa3, 0xfe, 0xeb, 0xbd, 0x45, 0x4d, 0x44, 0x23,
      0x64, 0x3c, 0xe8, 0x0e, 0x2a, 0x9a, 0xc9, 0x4f, 0xa5, 0x4c, 0xa4, 0x9f] := by decide

/-- C2: a URI of the hotp type is not rejected: get_secret_from_url never
inspects the host component, so the extraction succeeds and returns the
secret, contradicting the claimed UnsupportedOtpType failure (which the
repository's own test suite expects as "Only TOTP is supported"). -/
theorem C2_hotp_not_rejected :
    get_secret_from_url "otpauth://hotp/test?secret=JBSWY3DPEHPK3PXP" =
      Except.ok "JBSWY3DPEHPK3PXP" := by decide

/-- C4 counterexample: parsing http://example.com does not fail with a
structural URI error (nor with any type error, which the code cannot
produce): it fails with the missing-secret error. -/
theorem C4_counterexample :
    get_secret_from_url "http://example.com" = Except.error SecretErr.missingSecret ∧
    isStructuralUriError (get_secret_from_url "http://example.com") = false := by decide

/-- C4 amended: http://example.com parses fine structurally (scheme http,
host example.com, empty query), so extraction fails with the missing-secret
error, reported under the generic "Failed to parse TOTP URL: " prefix. -/
theorem C4_amended_missing_secret :
    urlsplit "http://example.com" = Except.ok ⟨"http", "example.com", "", "", ""⟩ ∧
    get_secret_from_url "http://example.com" = Except.error SecretErr.missingSecret ∧
    secretErrMsg SecretErr.missingSecret =
      "Failed to parse TOTP URL: The TOTP URL is missing the 'secret' parameter." := by
  exact ⟨by decide, by decide, rfl⟩

/- Evaluations feeding the C1 theorem, one heavy computation each. -/
theorem c1_pipeline_eval :
    corePipeline ("Some text before the URL\notpauth://totp/Test:user@example.com?secret=JBSWY3DPEHPK3PXP&issuer=Test&algorithm=SHA512&digits=7&period=45\nSome text after the URL")
        1672534861 = Except.ok "119891" := by decide

theorem c1_params_eval :
    totpNow "JBSWY3DPEHPK3PXP" 7 DigestAlg.sha512 45 1672534861 = Except.ok "1989734" := by
  decide

/-- C1: at 2023-01-01T01:01:01Z (unix 1672534861), the pipeline on the test
URI produces "119891", not the claimed "1989734": main extracts only the
secret and computes with pyotp defaults (SHA-1, 6 digits, period 30),
ignoring the algorithm=SHA512, digits=7 and period=45 parameters. Honouring
them — pyotp.TOTP("JBSWY3DPEHPK3PXP", digits=7, digest=sha512, interval=45)
as the repository's own integration test constructs it — does give
"1989734", so the embedding reproduces the documented expectation while the
program does not. -/
theorem C1_uri_parameters_ignored :
    corePipeline ("Some text before the URL\notpauth://totp/Test:user@example.com?secret=JBSWY3DPEHPK3PXP&issuer=Test&algorithm=SHA512&digits=7&period=45\nSome text after the URL")
        1672534861 = Except.ok "119891" ∧
    totpNow "JBSWY3DPEHPK3PXP" 7 DigestAlg.sha512 45 1672534861 = Except.ok "1989734" ∧
    ("119891" : String) ≠ "1989734" :=
  ⟨c1_pipeline_eval, c1_params_eval, by decide⟩
